import Mathlib

/-!
Shallow embedding of the color-preference pipeline in
`src/app/src/app/utils/colorUtils.js` (hexToRgb, preprocessData, trainModel,
predictColor), together with proofs checking the specification's claims.

Numbers that the JavaScript code handles as IEEE doubles are modelled as
rationals; every value produced by the pipeline (channel = n/255 with
n ≤ 255, confidence arithmetic) is exact in ℚ.  Tensor allocation and
disposal are modelled by an explicit heap of live buffer identifiers.  The
external ML engine (`model.fit`, `model.predict`) is a black box: `fit` is
an arbitrary function that may fail, a model is an arbitrary function from
a normalized color vector to a score.
-/

namespace ColorPredictor

/-- A JavaScript value as far as `hexToRgb` can distinguish it:
either a string, or any non-string value (`null`, a number, an object, ...),
all of which fail the `typeof hex !== 'string'` guard. -/
inductive JSVal where
  | str (s : String)
  | notStr
deriving DecidableEq, Repr

/-- An argument to `preprocessData`: either an array of JavaScript values or
any non-array value, which fails the `Array.isArray` guard. -/
inductive JSArg where
  | arr (l : List JSVal)
  | notArr
deriving DecidableEq, Repr

/-- Membership of a character in the regex character class `[a-f\d]` with the
case-insensitive flag: `0-9` (toNat 48-57), `a-f` (97-102), `A-F` (65-70). -/
def isHexDigit (c : Char) : Bool :=
  decide ((48 ≤ c.toNat ∧ c.toNat ≤ 57) ∨ (97 ≤ c.toNat ∧ c.toNat ≤ 102) ∨
    (65 ≤ c.toNat ∧ c.toNat ≤ 70))

/-- Value of a single hexadecimal digit, as `parseInt(-, 16)` reads it
(case-insensitive); 0 on a non-digit, which the regex guard rules out. -/
def hexVal (c : Char) : ℕ :=
  if 48 ≤ c.toNat ∧ c.toNat ≤ 57 then c.toNat - 48
  else if 97 ≤ c.toNat ∧ c.toNat ≤ 102 then c.toNat - 97 + 10
  else if 65 ≤ c.toNat ∧ c.toNat ≤ 70 then c.toNat - 65 + 10
  else 0

/-- `parseInt` of a two-hex-digit group, e.g. `parseInt("ff", 16) = 255`. -/
def byteVal (hi lo : Char) : ℕ := 16 * hexVal hi + hexVal lo

/-- `hex.charAt(0) === '#' ? hex.substring(1) : hex`. -/
def stripHash (cs : List Char) : List Char :=
  match cs with
  | c :: rest => if c = '#' then rest else c :: rest
  | [] => []

/-- `cleaned.length === 3 ? cleaned.split('').map(char => char + char).join('') : cleaned`. -/
def expand3 (cs : List Char) : List Char :=
  if cs.length = 3 then cs.flatMap (fun c => [c, c]) else cs

/-- Core of `hexToRgb` on the character list of a string: strip the optional
`#`, expand 3-digit shorthand, match `/^([a-f\d]{2})([a-f\d]{2})([a-f\d]{2})$/i`
and divide each two-digit group by 255.  (`parseInt` on a matched group never
throws, so the source's `try`/`catch` around it is inert.) -/
def hexToRgbChars (cs : List Char) : Option (ℚ × ℚ × ℚ) :=
  match expand3 (stripHash cs) with
  | [h1, h2, h3, h4, h5, h6] =>
    if isHexDigit h1 && isHexDigit h2 && isHexDigit h3 && isHexDigit h4 &&
        isHexDigit h5 && isHexDigit h6 then
      some ((byteVal h1 h2 : ℚ) / 255, (byteVal h3 h4 : ℚ) / 255,
        (byteVal h5 h6 : ℚ) / 255)
    else none
  | _ => none

/-- `hexToRgb` on a string argument; the `!hex` guard rejects the empty
string (the only falsy string). -/
def hexToRgbStr (s : String) : Option (ℚ × ℚ × ℚ) :=
  if s.data = [] then none else hexToRgbChars s.data

/-- `hexToRgb(hex)`: `null` (here `none`) for non-strings and strings that do
not parse, otherwise the three normalized channels. -/
def hexToRgb (v : JSVal) : Option (ℚ × ℚ × ℚ) :=
  match v with
  | .notStr => none
  | .str s => hexToRgbStr s

/-- Modelled from the spec: "a 3- or 6-hex-digit pattern (case-insensitive)
after optional `#` stripping" — used to state claim C6's success condition in
the spec's own terms. -/
def matchesHexPattern (cs : List Char) : Bool :=
  ((stripHash cs).length = 3 || (stripHash cs).length = 6) &&
    (stripHash cs).all isHexDigit

/-- The tensor heap: `next` is the next fresh buffer identifier, `live` the
identifiers of the currently allocated, not yet disposed buffers. -/
structure Heap where
  next : ℕ
  live : List ℕ
deriving DecidableEq, Repr

/-- Allocate a fresh buffer (`tf.tensor2d`, or the output of `model.predict`):
returns its identifier and the grown heap. -/
def Heap.alloc (h : Heap) : ℕ × Heap :=
  (h.next, ⟨h.next + 1, h.next :: h.live⟩)

/-- `tensor.dispose()`: remove the identifier from the live set. -/
def Heap.dispose (h : Heap) (id : ℕ) : Heap :=
  ⟨h.next, h.live.erase id⟩

/-- The object `preprocessData` returns: the data of the `xs` and `ys`
tensors, the tensors' buffer identifiers, and `totalSamples`. -/
structure Dataset where
  xsData : List (ℚ × ℚ × ℚ)
  ysData : List ℚ
  xsId : ℕ
  ysId : ℕ
  totalSamples : ℕ
deriving DecidableEq, Repr

/-- `preprocessData(selectedColors, unselectedColors)` with the tensor heap
threaded through.  Each entry is mapped through `hexToRgb` and the `null`
results are filtered out (`.map(hexToRgb).filter(rgb => rgb !== null)`, i.e.
`List.filterMap hexToRgb`); the labels are `Array(n).fill(1)` then
`Array(m).fill(0)`, flattened from shape `[n+m, 1]`. -/
def preprocessData (selectedColors unselectedColors : JSArg) (h : Heap) :
    Except String Dataset × Heap :=
  match selectedColors, unselectedColors with
  | .notArr, _ => (.error "Color arrays must be provided", h)
  | .arr _, .notArr => (.error "Color arrays must be provided", h)
  | .arr sel, .arr uns =>
    if sel.length = 0 ∨ uns.length = 0 then
      (.error "Both selected and unselected colors must contain data", h)
    else
      let processedSelected := sel.filterMap hexToRgb
      let processedUnselected := uns.filterMap hexToRgb
      if processedSelected.length = 0 ∨ processedUnselected.length = 0 then
        (.error "No valid colors found after processing", h)
      else
        let (xsId, h1) := h.alloc
        let (ysId, h2) := h1.alloc
        (.ok { xsData := processedSelected ++ processedUnselected,
               ysData := List.replicate processedSelected.length 1 ++
                 List.replicate processedUnselected.length 0,
               xsId := xsId, ysId := ysId,
               totalSamples := processedSelected.length + processedUnselected.length },
         h2)

/-- The record passed to `tf.callbacks.earlyStopping`. -/
structure EarlyStopping where
  monitor : String
  minDelta : ℚ
  patience : ℕ
  mode : String
deriving DecidableEq, Repr

/-- The early-stopping callback `trainModel` registers. -/
def earlyStoppingCallback : EarlyStopping :=
  { monitor := "val_loss", minDelta := 0.001, patience := 5, mode := "min" }

/-- The argument record of a `model.fit(xs, ys, options)` invocation: the two
tensor handles and the options object. -/
structure FitCall where
  xsId : ℕ
  ysId : ℕ
  epochs : ℕ
  batchSize : ℕ
  validationSplit : ℚ
  shuffle : Bool
  callbacks : List EarlyStopping
deriving DecidableEq, Repr

/-- The destructured `config` parameter of `trainModel`; `none` models an
omitted option, so that the destructuring defaults apply. -/
structure TrainConfig where
  epochs : Option ℕ := none
  batchSize : Option ℕ := none
  validationSplit : Option ℚ := none
deriving DecidableEq, Repr

/-- `trainModel(model, selectedColors, unselectedColors, config)`.  The
engine's `model.fit` is the black-box parameter `fit`; besides the result and
the heap, the returned triple records the list of `fit` invocations made.
The whole body sits in `try`/`catch`/`finally`: the `catch` rethrows
`` `Training failed: ${error.message}` `` for any error (including the ones
`preprocessData` raises), the `finally` disposes `tensors.xs` and
`tensors.ys` when `tensors` was assigned. -/
def trainModel {α : Type} (fit : FitCall → Except String α)
    (selectedColors unselectedColors : JSArg) (config : TrainConfig)
    (h : Heap) : Except String α × Heap × List FitCall :=
  let epochs := config.epochs.getD 50
  let batchSize := config.batchSize.getD 32
  let validationSplit := config.validationSplit.getD 0.2
  match preprocessData selectedColors unselectedColors h with
  | (.error e, h1) =>
    -- `tensors` was never assigned: the finally block disposes nothing.
    (.error ("Training failed: " ++ e), h1, [])
  | (.ok tensors, h1) =>
    let call : FitCall :=
      { xsId := tensors.xsId, ysId := tensors.ysId, epochs := epochs,
        batchSize := batchSize, validationSplit := validationSplit,
        shuffle := true, callbacks := [earlyStoppingCallback] }
    let result := fit call
    -- finally: tensors.xs.dispose(); tensors.ys.dispose()
    let h2 := (h1.dispose tensors.xsId).dispose tensors.ysId
    match result with
    | .ok history => (.ok history, h2, [call])
    | .error e => (.error ("Training failed: " ++ e), h2, [call])

/-- The object `predictColor` returns. -/
structure PredictionResult where
  score : ℚ
  confidence : ℚ
  likely : Bool
  prediction : String
deriving DecidableEq, Repr

/-- `predictColor(model, color)`.  The model is a black-box function from a
normalized color vector to a scalar score; `model.predict` allocates the
output buffer, `tf.tensor2d([rgb])` the input buffer.  The returned triple
also counts the forward passes run.  Only the input buffer is disposed (in
the `finally` block); nothing disposes the output buffer. -/
def predictColor (model : ℚ × ℚ × ℚ → ℚ) (color : JSVal) (h : Heap) :
    Except String PredictionResult × Heap × ℕ :=
  match hexToRgb color with
  | none => (.error "Invalid color format", h, 0)
  | some rgb =>
    let (inputId, h1) := h.alloc
    let (_outputId, h2) := h1.alloc
    let score := model rgb
    let confidence := |score - 0.5| * 2
    let result : PredictionResult :=
      { score := score, confidence := confidence,
        likely := decide (score > 0.5),
        prediction := if score > 0.5 then "like" else "dislike" }
    -- finally: input.dispose()
    let h3 := h2.dispose inputId
    (.ok result, h3, 1)

/-- The caller's arrays, modelled as a store of array references so that
mutation would be observable: index `r` holds the array behind reference `r`. -/
abbrev ArrStore : Type := List (List JSVal)

/-- Dereference an array in the store. -/
def readArr (st : ArrStore) (r : ℕ) : List JSVal :=
  st.getD r []

/-- `preprocessData` as invoked on array references held in the store.  The
source applies only non-mutating operations to the argument arrays (`map`,
`filter`, spread), so the store passes through unchanged. -/
def preprocessDataRef (st : ArrStore) (selRef unsRef : ℕ) (h : Heap) :
    (Except String Dataset × Heap) × ArrStore :=
  (preprocessData (.arr (readArr st selRef)) (.arr (readArr st unsRef)) h, st)

/-- `trainModel` as invoked on array references held in the store; as in the
source, the arrays are only read. -/
def trainModelRef {α : Type} (fit : FitCall → Except String α)
    (st : ArrStore) (selRef unsRef : ℕ) (config : TrainConfig) (h : Heap) :
    (Except String α × Heap × List FitCall) × ArrStore :=
  (trainModel fit (.arr (readArr st selRef)) (.arr (readArr st unsRef)) config h, st)

end ColorPredictor
namespace ColorPredictor

theorem hex_ofNat_add32 (n : ℕ) (h1 : 65 ≤ n) (h2 : n ≤ 90) :
    hexVal (Char.ofNat (n + 32)) = hexVal (Char.ofNat n) ∧
    isHexDigit (Char.ofNat (n + 32)) = isHexDigit (Char.ofNat n) ∧
    Char.ofNat (n + 32) ≠ '#' := by
  interval_cases n <;> exact ⟨by decide, by decide, by decide⟩

theorem hexVal_toLower (c : Char) : hexVal c.toLower = hexVal c := by
  simp only [Char.toLower]
  split
  · next h =>
    have := (hex_ofNat_add32 c.toNat h.1 h.2).1
    rwa [Char.ofNat_toNat] at this
  · rfl

end ColorPredictor
namespace ColorPredictor

theorem hex_ofNat_sub32 (n : ℕ) (h1 : 97 ≤ n) (h2 : n ≤ 122) :
    hexVal (Char.ofNat (n - 32)) = hexVal (Char.ofNat n) ∧
    isHexDigit (Char.ofNat (n - 32)) = isHexDigit (Char.ofNat n) ∧
    Char.ofNat (n - 32) ≠ '#' := by
  interval_cases n <;> exact ⟨by decide, by decide, by decide⟩

theorem toNat_eq_of_eq_hash {c : Char} (h : c = '#') : c.toNat = 35 := by
  subst h; decide

theorem hexVal_toUpper (c : Char) : hexVal c.toUpper = hexVal c := by
  simp only [Char.toUpper]
  split
  · next h =>
    have := (hex_ofNat_sub32 c.toNat h.1 h.2).1
    rwa [Char.ofNat_toNat] at this
  · rfl

theorem isHexDigit_toLower (c : Char) : isHexDigit c.toLower = isHexDigit c := by
  simp only [Char.toLower]
  split
  · next h =>
    have := (hex_ofNat_add32 c.toNat h.1 h.2).2.1
    rwa [Char.ofNat_toNat] at this
  · rfl

theorem isHexDigit_toUpper (c : Char) : isHexDigit c.toUpper = isHexDigit c := by
  simp only [Char.toUpper]
  split
  · next h =>
    have := (hex_ofNat_sub32 c.toNat h.1 h.2).2.1
    rwa [Char.ofNat_toNat] at this
  · rfl

theorem toLower_eq_hash_iff (c : Char) : c.toLower = '#' ↔ c = '#' := by
  simp only [Char.toLower]
  split
  · next h =>
    constructor
    · intro hc; exact absurd hc (hex_ofNat_add32 c.toNat h.1 h.2).2.2
    · intro hc; have := toNat_eq_of_eq_hash hc; omega
  · exact Iff.rfl

theorem toUpper_eq_hash_iff (c : Char) : c.toUpper = '#' ↔ c = '#' := by
  simp only [Char.toUpper]
  split
  · next h =>
    constructor
    · intro hc; exact absurd hc (hex_ofNat_sub32 c.toNat h.1 h.2).2.2
    · intro hc; have := toNat_eq_of_eq_hash hc; omega
  · exact Iff.rfl

end ColorPredictor
namespace ColorPredictor

theorem stripHash_map (f : Char → Char) (hf : ∀ c, f c = '#' ↔ c = '#')
    (cs : List Char) : stripHash (cs.map f) = (stripHash cs).map f := by
  cases cs with
  | nil => rfl
  | cons a t =>
    simp only [List.map_cons, stripHash]
    by_cases ha : a = '#'
    · rw [if_pos ((hf a).mpr ha), if_pos ha]
    · rw [if_neg (fun h => ha ((hf a).mp h)), if_neg ha, List.map_cons]

theorem dup_flatMap_map (f : Char → Char) (cs : List Char) :
    (cs.map f).flatMap (fun c => [c, c]) =
      (cs.flatMap (fun c => [c, c])).map f := by
  induction cs with
  | nil => rfl
  | cons a t ih => simp [List.flatMap_cons, ih]

theorem expand3_map (f : Char → Char) (cs : List Char) :
    expand3 (cs.map f) = (expand3 cs).map f := by
  simp only [expand3, List.length_map]
  split
  · exact dup_flatMap_map f cs
  · rfl

theorem hexToRgbChars_map (f : Char → Char) (hfh : ∀ c, f c = '#' ↔ c = '#')
    (hfd : ∀ c, isHexDigit (f c) = isHexDigit c)
    (hfv : ∀ c, hexVal (f c) = hexVal c) (cs : List Char) :
    hexToRgbChars (cs.map f) = hexToRgbChars cs := by
  unfold hexToRgbChars
  rw [stripHash_map f hfh, expand3_map]
  rcases expand3 (stripHash cs) with _ | ⟨a, _ | ⟨b, _ | ⟨c, _ | ⟨d, _ | ⟨e, _ | ⟨g, _ | ⟨k, t⟩⟩⟩⟩⟩⟩⟩ <;>
    simp [byteVal, hfd, hfv]

end ColorPredictor
namespace ColorPredictor

theorem hexToRgbStr_map (f : Char → Char) (hfh : ∀ c, f c = '#' ↔ c = '#')
    (hfd : ∀ c, isHexDigit (f c) = isHexDigit c)
    (hfv : ∀ c, hexVal (f c) = hexVal c) (s : String) :
    hexToRgbStr ⟨s.data.map f⟩ = hexToRgbStr s := by
  rcases s with ⟨cs⟩
  show (if cs.map f = [] then _ else hexToRgbChars (cs.map f)) = _
  unfold hexToRgbStr
  by_cases h0 : cs = []
  · subst h0; rfl
  · rw [if_neg (by simpa using h0), if_neg (by simpa using h0),
      hexToRgbChars_map f hfh hfd hfv]

theorem hexToRgb_hash_prepend (s : String) (h : s.data.head? ≠ some '#') :
    hexToRgbStr ("#" ++ s) = hexToRgbStr s := by
  rcases s with ⟨cs⟩
  have hdata : ("#" ++ String.mk cs).data = '#' :: cs := rfl
  unfold hexToRgbStr
  rw [hdata]
  cases cs with
  | nil => rfl
  | cons a t =>
    have ha : a ≠ '#' := by simpa using h
    rw [if_neg (by simp), if_neg (by simp)]
    show hexToRgbChars ('#' :: a :: t) = hexToRgbChars (a :: t)
    unfold hexToRgbChars
    rw [show stripHash ('#' :: a :: t) = a :: t from by simp [stripHash],
      show stripHash (a :: t) = a :: t from by simp [stripHash, ha]]

theorem hexToRgb_shorthand (a b c : Char) :
    hexToRgbStr ⟨[a, b, c]⟩ = hexToRgbStr ⟨[a, a, b, b, c, c]⟩ := by
  unfold hexToRgbStr
  rw [if_neg (by simp), if_neg (by simp)]
  by_cases ha : a = '#'
  · subst ha
    simp [hexToRgbChars, stripHash, expand3]
  · unfold hexToRgbChars
    rw [show stripHash [a, b, c] = [a, b, c] from by simp [stripHash, ha],
      show stripHash [a, a, b, b, c, c] = [a, a, b, b, c, c] from by
        simp [stripHash, ha]]
    simp [expand3]

end ColorPredictor
namespace ColorPredictor

theorem hexToRgbChars_isSome (cs : List Char) :
    (hexToRgbChars cs).isSome = matchesHexPattern cs := by
  unfold hexToRgbChars matchesHexPattern
  by_cases h3 : (stripHash cs).length = 3
  · obtain ⟨a, b, c, hl⟩ := List.length_eq_three.mp h3
    rw [hl]
    rw [show expand3 [a, b, c] = [a, a, b, b, c, c] from by simp [expand3]]
    simp only [List.all_cons, List.all_nil, List.length_cons, List.length_nil]
    cases isHexDigit a <;> cases isHexDigit b <;> (cases isHexDigit c; simp; simp)
  · rcases cs' : stripHash cs with _ | ⟨a, _ | ⟨b, _ | ⟨c, _ | ⟨d, _ | ⟨e, _ | ⟨f, _ | ⟨g, t⟩⟩⟩⟩⟩⟩⟩ <;>
      (rw [cs'] at h3; simp_all [expand3, List.all_cons]) <;>
      cases isHexDigit a <;> cases isHexDigit b <;> cases isHexDigit c <;>
      cases isHexDigit d <;> cases isHexDigit e <;> cases isHexDigit f <;> simp

end ColorPredictor
namespace ColorPredictor

theorem preprocessData_arr_eq (ls us : List JSVal) (h : Heap) :
    preprocessData (.arr ls) (.arr us) h =
      if ls.length = 0 ∨ us.length = 0 then
        (.error "Both selected and unselected colors must contain data", h)
      else if (ls.filterMap hexToRgb).length = 0 ∨
          (us.filterMap hexToRgb).length = 0 then
        (.error "No valid colors found after processing", h)
      else
        (.ok { xsData := ls.filterMap hexToRgb ++ us.filterMap hexToRgb,
               ysData := List.replicate (ls.filterMap hexToRgb).length 1 ++
                 List.replicate (us.filterMap hexToRgb).length 0,
               xsId := h.next, ysId := h.next + 1,
               totalSamples := (ls.filterMap hexToRgb).length +
                 (us.filterMap hexToRgb).length },
         ⟨h.next + 2, (h.next + 1) :: h.next :: h.live⟩) := rfl

theorem preprocessData_ok_eq (sel uns : List JSVal) (h : Heap)
    (hs : sel ≠ []) (hu : uns ≠ [])
    (hps : sel.filterMap hexToRgb ≠ []) (hpu : uns.filterMap hexToRgb ≠ []) :
    preprocessData (.arr sel) (.arr uns) h =
      (.ok { xsData := sel.filterMap hexToRgb ++ uns.filterMap hexToRgb,
             ysData := List.replicate (sel.filterMap hexToRgb).length 1 ++
               List.replicate (uns.filterMap hexToRgb).length 0,
             xsId := h.next, ysId := h.next + 1,
             totalSamples := (sel.filterMap hexToRgb).length +
               (uns.filterMap hexToRgb).length },
       ⟨h.next + 2, (h.next + 1) :: h.next :: h.live⟩) := by
  rw [preprocessData_arr_eq,
    if_neg (by simp [List.length_eq_zero, hs, hu]),
    if_neg (by simp [List.length_eq_zero, hps, hpu])]

theorem preprocessData_cases (a b : JSArg) (h : Heap) :
    (∃ e, preprocessData a b h = (.error e, h)) ∨
    (∃ ds : Dataset, ds.xsId = h.next ∧ ds.ysId = h.next + 1 ∧
      preprocessData a b h =
        (.ok ds, ⟨h.next + 2, (h.next + 1) :: h.next :: h.live⟩)) := by
  rcases a with ls | _
  · rcases b with us | _
    · rw [preprocessData_arr_eq]
      split
      · exact .inl ⟨_, rfl⟩
      · split
        · exact .inl ⟨_, rfl⟩
        · exact .inr ⟨_, rfl, rfl, rfl⟩
    · exact .inl ⟨_, rfl⟩
  · exact .inl ⟨_, rfl⟩

theorem erase_fresh_pair (n : ℕ) (l : List ℕ) :
    ((((n + 1) :: n :: l).erase n).erase (n + 1)) = l := by
  rw [List.erase_cons_tail (by simp), List.erase_cons_head,
    List.erase_cons_head]

theorem trainModel_heap_restored {α : Type} (fit : FitCall → Except String α)
    (sel uns : JSArg) (cfg : TrainConfig) (h : Heap) :
    ((trainModel fit sel uns cfg h).2.1).live = h.live := by
  unfold trainModel
  rcases preprocessData_cases sel uns h with ⟨e, hp⟩ | ⟨ds, hx, hy, hp⟩
  · rw [hp]
  · rw [hp]
    simp only [Heap.dispose, hx, hy, erase_fresh_pair]
    split <;> rfl

end ColorPredictor
namespace ColorPredictor

theorem trainModel_error_of_pre {α : Type} (fit : FitCall → Except String α)
    (sel uns : JSArg) (cfg : TrainConfig) (h h1 : Heap) (e : String)
    (hp : preprocessData sel uns h = (.error e, h1)) :
    trainModel fit sel uns cfg h = (.error ("Training failed: " ++ e), h1, []) := by
  unfold trainModel; rw [hp]

theorem trainModel_calls_eq {α : Type} (fit : FitCall → Except String α)
    (sel uns : JSArg) (cfg : TrainConfig) (h h1 : Heap) (ds : Dataset)
    (hp : preprocessData sel uns h = (.ok ds, h1)) :
    (trainModel fit sel uns cfg h).2.2 =
      [{ xsId := ds.xsId, ysId := ds.ysId, epochs := cfg.epochs.getD 50,
         batchSize := cfg.batchSize.getD 32,
         validationSplit := cfg.validationSplit.getD 0.2, shuffle := true,
         callbacks := [earlyStoppingCallback] }] := by
  unfold trainModel; rw [hp]
  dsimp only
  split <;> rfl

theorem trainModel_fit_error {α : Type} (fit : FitCall → Except String α)
    (sel uns : JSArg) (cfg : TrainConfig) (h h1 : Heap) (ds : Dataset)
    (e : String)
    (hp : preprocessData sel uns h = (.ok ds, h1))
    (hf : fit { xsId := ds.xsId, ysId := ds.ysId, epochs := cfg.epochs.getD 50,
                batchSize := cfg.batchSize.getD 32,
                validationSplit := cfg.validationSplit.getD 0.2, shuffle := true,
                callbacks := [earlyStoppingCallback] } = .error e) :
    (trainModel fit sel uns cfg h).1 = .error ("Training failed: " ++ e) := by
  unfold trainModel; rw [hp]; dsimp only; rw [hf]

theorem trainModel_fit_ok {α : Type} (fit : FitCall → Except String α)
    (sel uns : JSArg) (cfg : TrainConfig) (h h1 : Heap) (ds : Dataset)
    (a : α)
    (hp : preprocessData sel uns h = (.ok ds, h1))
    (hf : fit { xsId := ds.xsId, ysId := ds.ysId, epochs := cfg.epochs.getD 50,
                batchSize := cfg.batchSize.getD 32,
                validationSplit := cfg.validationSplit.getD 0.2, shuffle := true,
                callbacks := [earlyStoppingCallback] } = .ok a) :
    (trainModel fit sel uns cfg h).1 = .ok a := by
  unfold trainModel; rw [hp]; dsimp only; rw [hf]

theorem predictColor_none_eq (model : ℚ × ℚ × ℚ → ℚ) (color : JSVal)
    (h : Heap) (hn : hexToRgb color = none) :
    predictColor model color h = (.error "Invalid color format", h, 0) := by
  unfold predictColor; rw [hn]

theorem predictColor_some_eq (model : ℚ × ℚ × ℚ → ℚ) (color : JSVal)
    (h : Heap) (rgb : ℚ × ℚ × ℚ) (hs : hexToRgb color = some rgb) :
    predictColor model color h =
      (.ok { score := model rgb, confidence := |model rgb - 0.5| * 2,
             likely := decide (model rgb > 0.5),
             prediction := if model rgb > 0.5 then "like" else "dislike" },
       ⟨h.next + 2, (h.next + 1) :: h.live⟩, 1) := by
  unfold predictColor; rw [hs]
  show (_, Heap.dispose ⟨h.next + 2, (h.next + 1) :: h.next :: h.live⟩ h.next, _) = _
  rw [show Heap.dispose ⟨h.next + 2, (h.next + 1) :: h.next :: h.live⟩ h.next =
    ⟨h.next + 2, (h.next + 1) :: h.live⟩ from by
      unfold Heap.dispose
      rw [List.erase_cons_tail (by simp), List.erase_cons_head]]

end ColorPredictor

namespace ColorPredictor

theorem hexVal_le (c : Char) : hexVal c ≤ 15 := by
  unfold hexVal
  split_ifs <;> omega

theorem byteVal_le (hi lo : Char) : byteVal hi lo ≤ 255 := by
  have h1 := hexVal_le hi
  have h2 := hexVal_le lo
  unfold byteVal
  omega

theorem hexToRgbChars_some (cs : List Char) (r g b : ℚ)
    (hs : hexToRgbChars cs = some (r, g, b)) :
    ∃ n1 n2 n3 : ℕ, n1 ≤ 255 ∧ n2 ≤ 255 ∧ n3 ≤ 255 ∧
      r = (n1 : ℚ) / 255 ∧ g = (n2 : ℚ) / 255 ∧ b = (n3 : ℚ) / 255 := by
  unfold hexToRgbChars at hs
  rcases he : expand3 (stripHash cs) with _ | ⟨a, _ | ⟨c2, _ | ⟨c3, _ | ⟨c4, _ | ⟨c5, _ | ⟨c6, _ | ⟨c7, t⟩⟩⟩⟩⟩⟩⟩ <;>
    (rw [he] at hs; try exact Option.noConfusion hs)
  simp only [Bool.and_eq_true] at hs
  rw [ite_eq_iff] at hs
  rcases hs with ⟨-, hs⟩ | ⟨-, hs⟩
  · obtain ⟨hr, hg, hb⟩ : (byteVal a c2 : ℚ) / 255 = r ∧
        (byteVal c3 c4 : ℚ) / 255 = g ∧ (byteVal c5 c6 : ℚ) / 255 = b := by
      simpa using hs
    exact ⟨byteVal a c2, byteVal c3 c4, byteVal c5 c6,
      byteVal_le _ _, byteVal_le _ _, byteVal_le _ _,
      hr.symm, hg.symm, hb.symm⟩
  · exact Option.noConfusion hs

theorem channel_bounds (n : ℕ) (hn : n ≤ 255) :
    0 ≤ (n : ℚ) / 255 ∧ (n : ℚ) / 255 ≤ 1 := by
  constructor
  · positivity
  · rw [div_le_one (by norm_num)]
    exact_mod_cast hn

end ColorPredictor

namespace ColorPredictor

theorem hexToRgb_nil_eq : hexToRgb (.str ⟨[]⟩) = none := rfl

theorem hexToRgb_cons_eq (a : Char) (t : List Char) :
    hexToRgb (.str ⟨a :: t⟩) = hexToRgbChars (a :: t) := by
  simp [hexToRgb, hexToRgbStr]

/-- Claim C6: `hexToRgb` never throws (it is a total function into
`Option`); it returns `none` exactly when the input is not a string, is
empty, or fails the 3-or-6-hex-digit pattern after `#` stripping and
shorthand expansion; every successful parse yields three channels, each a
two-hex-digit value divided by 255, hence in `[0, 1]`. -/
theorem hexToRgb_null_and_range_spec (v : JSVal) :
    (hexToRgb v = none ↔
      v = .notStr ∨ v = .str "" ∨
        ∃ s : String, v = .str s ∧ matchesHexPattern s.data = false) ∧
    (∀ r g b : ℚ, hexToRgb v = some (r, g, b) →
      ∃ n1 n2 n3 : ℕ, n1 ≤ 255 ∧ n2 ≤ 255 ∧ n3 ≤ 255 ∧
        r = (n1 : ℚ) / 255 ∧ g = (n2 : ℚ) / 255 ∧ b = (n3 : ℚ) / 255 ∧
        0 ≤ r ∧ r ≤ 1 ∧ 0 ≤ g ∧ g ≤ 1 ∧ 0 ≤ b ∧ b ≤ 1) := by
  constructor
  · rcases v with ⟨cs⟩ | _
    · rcases cs with _ | ⟨a, t⟩
      · exact iff_of_true hexToRgb_nil_eq (.inr (.inl rfl))
      · rw [hexToRgb_cons_eq]
        have hiff : hexToRgbChars (a :: t) = none ↔
            matchesHexPattern (a :: t) = false := by
          rw [← hexToRgbChars_isSome]
          cases hexToRgbChars (a :: t) <;> simp
        rw [hiff]
        constructor
        · intro hm
          exact .inr (.inr ⟨⟨a :: t⟩, rfl, hm⟩)
        · rintro (h | h | ⟨s', hs', hm⟩)
          · exact absurd h (by simp)
          · exact absurd h (by simp [String.ext_iff])
          · obtain rfl : (⟨a :: t⟩ : String) = s' := by
              simpa [JSVal.str.injEq] using hs'
            exact hm
    · simp [hexToRgb]
  · intro r g b hs
    rcases v with ⟨cs⟩ | _
    · rcases cs with _ | ⟨a, t⟩
      · rw [hexToRgb_nil_eq] at hs
        exact Option.noConfusion hs
      · rw [hexToRgb_cons_eq] at hs
        obtain ⟨n1, n2, n3, h1, h2, h3, hr, hg, hb⟩ :=
          hexToRgbChars_some (a :: t) r g b hs
        obtain ⟨hr0, hr1⟩ := channel_bounds n1 h1
        obtain ⟨hg0, hg1⟩ := channel_bounds n2 h2
        obtain ⟨hb0, hb1⟩ := channel_bounds n3 h3
        subst hr; subst hg; subst hb
        exact ⟨n1, n2, n3, h1, h2, h3, rfl, rfl, rfl,
          hr0, hr1, hg0, hg1, hb0, hb1⟩
    · exact Option.noConfusion hs

/-- Witness for C6 at concrete inputs: a null case and the successful parse
of `"#fff"`, whose channels are all `255/255 = 1`. -/
theorem hexToRgb_null_and_range_spec_witness :
    (hexToRgb (.str "not-a-color") = none ↔
      JSVal.str "not-a-color" = .notStr ∨ JSVal.str "not-a-color" = .str "" ∨
        ∃ s : String, JSVal.str "not-a-color" = .str s ∧
          matchesHexPattern s.data = false) ∧
    (∃ n1 n2 n3 : ℕ, n1 ≤ 255 ∧ n2 ≤ 255 ∧ n3 ≤ 255 ∧
      (1 : ℚ) = (n1 : ℚ) / 255 ∧ (1 : ℚ) = (n2 : ℚ) / 255 ∧
      (1 : ℚ) = (n3 : ℚ) / 255 ∧
      0 ≤ (1 : ℚ) ∧ (1 : ℚ) ≤ 1 ∧ 0 ≤ (1 : ℚ) ∧ (1 : ℚ) ≤ 1 ∧
      0 ≤ (1 : ℚ) ∧ (1 : ℚ) ≤ 1) :=
  ⟨(hexToRgb_null_and_range_spec (.str "not-a-color")).1,
   (hexToRgb_null_and_range_spec (.str "#fff")).2 1 1 1 (by
      simp [hexToRgb, hexToRgbStr, hexToRgbChars, stripHash, expand3,
        byteVal, hexVal, isHexDigit])⟩

end ColorPredictor

namespace ColorPredictor

/-- Claim C7: `hexToRgb` is a function (hence deterministic) and is
insensitive to a leading `#`, to letter case, and to 3-digit shorthand
versus its duplicated 6-digit expansion; `"#fff"` and `"ffffff"` both parse
to `[1, 1, 1]`. -/
theorem hexToRgb_invariance :
    (∀ s : String, s.data.head? ≠ some '#' →
      hexToRgb (.str ("#" ++ s)) = hexToRgb (.str s)) ∧
    (∀ s : String,
      hexToRgb (.str ⟨s.data.map Char.toLower⟩) = hexToRgb (.str s)) ∧
    (∀ s : String,
      hexToRgb (.str ⟨s.data.map Char.toUpper⟩) = hexToRgb (.str s)) ∧
    (∀ a b c : Char,
      hexToRgb (.str ⟨[a, b, c]⟩) = hexToRgb (.str ⟨[a, a, b, b, c, c]⟩)) ∧
    hexToRgb (.str "#fff") = some (1, 1, 1) ∧
    hexToRgb (.str "ffffff") = some (1, 1, 1) := by
  refine ⟨?_, ?_, ?_, ?_, ?_, ?_⟩
  · intro s hhead
    exact hexToRgb_hash_prepend s hhead
  · intro s
    exact hexToRgbStr_map Char.toLower toLower_eq_hash_iff
      isHexDigit_toLower hexVal_toLower s
  · intro s
    exact hexToRgbStr_map Char.toUpper toUpper_eq_hash_iff
      isHexDigit_toUpper hexVal_toUpper s
  · intro a b c
    exact hexToRgb_shorthand a b c
  · simp [hexToRgb, hexToRgbStr, hexToRgbChars, stripHash, expand3,
      byteVal, hexVal, isHexDigit]
  · simp [hexToRgb, hexToRgbStr, hexToRgbChars, stripHash, expand3,
      byteVal, hexVal, isHexDigit]

/-- Witness for C7: the invariances evaluated at `"fff"`, `"FFF"` and the
concrete shorthand. -/
theorem hexToRgb_invariance_witness :
    hexToRgb (.str ("#" ++ "fff")) = hexToRgb (.str "fff") ∧
    hexToRgb (.str ⟨("FFF" : String).data.map Char.toLower⟩) =
      hexToRgb (.str "FFF") ∧
    hexToRgb (.str "#fff") = some (1, 1, 1) :=
  ⟨hexToRgb_invariance.1 "fff" (by decide),
   hexToRgb_invariance.2.1 "FFF",
   hexToRgb_invariance.2.2.2.2.1⟩

end ColorPredictor

namespace ColorPredictor

/-- Claim C4: on non-empty lists each containing at least one parseable
color, `preprocessData` succeeds with inputs = parseable liked vectors (in
order) followed by parseable disliked vectors (in order), labels = as many
1s followed by as many 0s, equal positive lengths, and total count = number
of parseable liked plus parseable disliked entries; unparseable entries are
dropped (they do not appear in `filterMap hexToRgb`). -/
theorem preprocessData_dataset_spec (sel uns : List JSVal) (h : Heap)
    (hs : sel ≠ []) (hu : uns ≠ [])
    (hps : sel.filterMap hexToRgb ≠ []) (hpu : uns.filterMap hexToRgb ≠ []) :
    ∃ (ds : Dataset) (h1 : Heap),
      preprocessData (.arr sel) (.arr uns) h = (.ok ds, h1) ∧
      ds.xsData = sel.filterMap hexToRgb ++ uns.filterMap hexToRgb ∧
      ds.ysData = List.replicate (sel.filterMap hexToRgb).length 1 ++
        List.replicate (uns.filterMap hexToRgb).length 0 ∧
      ds.xsData.length = ds.ysData.length ∧
      0 < ds.xsData.length ∧
      ds.totalSamples = (sel.filterMap hexToRgb).length +
        (uns.filterMap hexToRgb).length ∧
      ds.ysData.length = ds.totalSamples := by
  refine ⟨_, _, preprocessData_ok_eq sel uns h hs hu hps hpu,
    rfl, rfl, ?_, ?_, rfl, ?_⟩
  · simp
  · have := List.length_pos.mpr hps
    simp only [List.length_append]
    omega
  · simp

/-- Witness for C4: the spec's concrete example with two liked and two
disliked colors, total count 4. -/
theorem preprocessData_dataset_spec_witness :
    ∃ (ds : Dataset) (h1 : Heap),
      preprocessData (.arr [.str "#ffffff", .str "#ffffff"])
        (.arr [.str "#000000", .str "#000000"]) ⟨0, []⟩ = (.ok ds, h1) ∧
      ds.xsData = [.str "#ffffff", .str "#ffffff"].filterMap hexToRgb ++
        [.str "#000000", .str "#000000"].filterMap hexToRgb ∧
      ds.ysData = List.replicate
          ([.str "#ffffff", .str "#ffffff"].filterMap hexToRgb).length 1 ++
        List.replicate
          ([.str "#000000", .str "#000000"].filterMap hexToRgb).length 0 ∧
      ds.xsData.length = ds.ysData.length ∧
      0 < ds.xsData.length ∧
      ds.totalSamples =
        ([.str "#ffffff", .str "#ffffff"].filterMap hexToRgb).length +
        ([.str "#000000", .str "#000000"].filterMap hexToRgb).length ∧
      ds.ysData.length = ds.totalSamples :=
  preprocessData_dataset_spec _ _ ⟨0, []⟩ (by decide) (by decide)
    (by decide) (by decide)

/-- Claim C5: `preprocessData` raises the arrays-validation error iff an
argument is not an array, the empty-input validation error iff both are
arrays and one is empty, the no-valid-colors data error iff both are
non-empty arrays and one filters to nothing, and succeeds in every other
case — in particular a single usable sample per class passes (no
minimum-count gate). -/
theorem preprocessData_error_characterization (a b : JSArg) (h : Heap) :
    ((preprocessData a b h).1 = .error "Color arrays must be provided" ↔
      a = .notArr ∨ b = .notArr) ∧
    ((preprocessData a b h).1 =
        .error "Both selected and unselected colors must contain data" ↔
      ∃ ls us, a = .arr ls ∧ b = .arr us ∧ (ls = [] ∨ us = [])) ∧
    ((preprocessData a b h).1 = .error "No valid colors found after processing" ↔
      ∃ ls us, a = .arr ls ∧ b = .arr us ∧ ls ≠ [] ∧ us ≠ [] ∧
        (ls.filterMap hexToRgb = [] ∨ us.filterMap hexToRgb = [])) ∧
    ((∃ ds, (preprocessData a b h).1 = .ok ds) ↔
      ∃ ls us, a = .arr ls ∧ b = .arr us ∧ ls ≠ [] ∧ us ≠ [] ∧
        ls.filterMap hexToRgb ≠ [] ∧ us.filterMap hexToRgb ≠ []) := by
  rcases a with ls | _
  · rcases b with us | _
    · rw [preprocessData_arr_eq]
      by_cases h1 : ls.length = 0 ∨ us.length = 0
      · rw [if_pos h1]
        simp only [List.length_eq_zero] at h1
        refine ⟨?_, ?_, ?_, ?_⟩
        · simp
        · exact iff_of_true rfl ⟨ls, us, rfl, rfl, h1⟩
        · constructor
          · intro he; exact absurd he (by simp)
          · rintro ⟨ls', us', hl, hu, hne, _⟩
            obtain rfl : ls = ls' := by simpa using hl
            obtain rfl : us = us' := by simpa using hu
            rcases h1 with h1 | h1 <;> simp_all
        · constructor
          · rintro ⟨ds, hds⟩; exact absurd hds (by simp)
          · rintro ⟨ls', us', hl, hu, hne, hne', _⟩
            obtain rfl : ls = ls' := by simpa using hl
            obtain rfl : us = us' := by simpa using hu
            rcases h1 with h1 | h1 <;> simp_all
      · rw [if_neg h1]
        simp only [List.length_eq_zero, not_or] at h1
        by_cases h2 : (ls.filterMap hexToRgb).length = 0 ∨
            (us.filterMap hexToRgb).length = 0
        · rw [if_pos h2]
          simp only [List.length_eq_zero] at h2
          refine ⟨?_, ?_, ?_, ?_⟩
          · simp
          · constructor
            · intro he; exact absurd he (by simp)
            · rintro ⟨ls', us', hl, hu, hemp⟩
              obtain rfl : ls = ls' := by simpa using hl
              obtain rfl : us = us' := by simpa using hu
              rcases hemp with hemp | hemp <;> simp_all
          · simp only [Except.error.injEq, true_iff]
            exact ⟨ls, us, rfl, rfl, h1.1, h1.2, h2⟩
          · constructor
            · rintro ⟨ds, hds⟩; exact absurd hds (by simp)
            · rintro ⟨ls', us', hl, hu, hne, hne', hp, hp'⟩
              obtain rfl : ls = ls' := by simpa using hl
              obtain rfl : us = us' := by simpa using hu
              rcases h2 with h2 | h2 <;> simp_all
        · rw [if_neg h2]
          simp only [List.length_eq_zero, not_or] at h2
          refine ⟨?_, ?_, ?_, ?_⟩
          · constructor
            · intro he; exact absurd he (by simp)
            · rintro (hl | hu) <;> simp_all
          · constructor
            · intro he; exact absurd he (by simp)
            · rintro ⟨ls', us', hl, hu, hemp⟩
              obtain rfl : ls = ls' := by simpa using hl
              obtain rfl : us = us' := by simpa using hu
              rcases hemp with hemp | hemp <;> simp_all
          · constructor
            · intro he; exact absurd he (by simp)
            · rintro ⟨ls', us', hl, hu, hne, hne', hemp⟩
              obtain rfl : ls = ls' := by simpa using hl
              obtain rfl : us = us' := by simpa using hu
              rcases hemp with hemp | hemp <;> simp_all
          · simp only [Except.ok.injEq, exists_eq]
            exact iff_of_true (by exact ⟨_, rfl⟩)
              ⟨ls, us, rfl, rfl, h1.1, h1.2, h2.1, h2.2⟩
    · rw [show preprocessData (.arr ls) .notArr h =
        (.error "Color arrays must be provided", h) from rfl]
      refine ⟨by simp, ?_, ?_, ?_⟩
      · constructor
        · intro he; exact absurd he (by simp)
        · rintro ⟨ls', us', hl, hu, hemp⟩; exact absurd hu (by simp)
      · constructor
        · intro he; exact absurd he (by simp)
        · rintro ⟨ls', us', hl, hu, hrest⟩; exact absurd hu (by simp)
      · constructor
        · rintro ⟨ds, hds⟩; exact absurd hds (by simp)
        · rintro ⟨ls', us', hl, hu, hrest⟩; exact absurd hu (by simp)
  · rw [show preprocessData .notArr b h =
      (.error "Color arrays must be provided", h) from rfl]
    refine ⟨by simp, ?_, ?_, ?_⟩
    · constructor
      · intro he; exact absurd he (by simp)
      · rintro ⟨ls', us', hl, hu, hemp⟩; exact absurd hl (by simp)
    · constructor
      · intro he; exact absurd he (by simp)
      · rintro ⟨ls', us', hl, hu, hrest⟩; exact absurd hl (by simp)
    · constructor
      · rintro ⟨ds, hds⟩; exact absurd hds (by simp)
      · rintro ⟨ls', us', hl, hu, hrest⟩; exact absurd hl (by simp)

end ColorPredictor

namespace ColorPredictor

/-- Claim C3: on any model (trained or not — any score function, so the
call cannot fail merely because the model is untrained) and any parseable
hex string, `predictColor` succeeds with confidence `|score - 0.5| * 2`,
`likely` true exactly when `score > 0.5`, label `"like"` exactly when
`score > 0.5` and `"dislike"` otherwise, and confidence in `[0, 1]`
whenever the score is in `[0, 1]`. -/
theorem predictColor_result_spec (model : ℚ × ℚ × ℚ → ℚ) (color : JSVal)
    (rgb : ℚ × ℚ × ℚ) (h : Heap) (hs : hexToRgb color = some rgb) :
    ∃ r : PredictionResult, (predictColor model color h).1 = .ok r ∧
      r.score = model rgb ∧
      r.confidence = |model rgb - 0.5| * 2 ∧
      (r.likely = true ↔ model rgb > 0.5) ∧
      (r.prediction = "like" ↔ model rgb > 0.5) ∧
      (r.prediction = "dislike" ↔ ¬ model rgb > 0.5) ∧
      (0 ≤ model rgb → model rgb ≤ 1 →
        0 ≤ r.confidence ∧ r.confidence ≤ 1) := by
  refine ⟨_, by rw [predictColor_some_eq model color h rgb hs],
    rfl, rfl, ?_, ?_, ?_, ?_⟩
  · simp
  · show (if model rgb > 0.5 then "like" else "dislike") = "like" ↔
      model rgb > 0.5
    split_ifs with hcmp <;> simp [hcmp]
  · show (if model rgb > 0.5 then "like" else "dislike") = "dislike" ↔
      ¬ model rgb > 0.5
    split_ifs with hcmp <;> simp [hcmp]
  · intro h0 h1
    constructor
    · positivity
    · show |model rgb - 0.5| * 2 ≤ 1
      have : |model rgb - 0.5| ≤ 0.5 := by
        rw [abs_le]
        constructor <;> [linarith; linarith]
      linarith

/-- Witness for C3: an (arbitrary, untrained) constant-score model on
`"#fff"`. -/
theorem predictColor_result_spec_witness :
    ∃ r : PredictionResult,
      (predictColor (fun _ => 0.7) (.str "#fff") ⟨0, []⟩).1 = .ok r ∧
      r.score = 0.7 ∧
      r.confidence = |(0.7 : ℚ) - 0.5| * 2 ∧
      (r.likely = true ↔ (0.7 : ℚ) > 0.5) ∧
      (r.prediction = "like" ↔ (0.7 : ℚ) > 0.5) ∧
      (r.prediction = "dislike" ↔ ¬ (0.7 : ℚ) > 0.5) ∧
      (0 ≤ (0.7 : ℚ) → (0.7 : ℚ) ≤ 1 →
        0 ≤ r.confidence ∧ r.confidence ≤ 1) :=
  predictColor_result_spec (fun _ => 0.7) (.str "#fff") (1, 1, 1) ⟨0, []⟩
    (by simp [hexToRgb, hexToRgbStr, hexToRgbChars, stripHash, expand3,
      byteVal, hexVal, isHexDigit])

/-- Claim C8: on any string the Color Codec rejects, `predictColor` fails
with the invalid-input error, with the heap untouched (no inference buffer
allocated) and zero forward passes run. -/
theorem predictColor_invalid_input (model : ℚ × ℚ × ℚ → ℚ) (color : JSVal)
    (h : Heap) (hn : hexToRgb color = none) :
    predictColor model color h = (.error "Invalid color format", h, 0) :=
  predictColor_none_eq model color h hn

/-- Witness for C8 at a string that does not parse. -/
theorem predictColor_invalid_input_witness :
    predictColor (fun _ => 0) (.str "nope") ⟨0, []⟩ =
      (.error "Invalid color format", ⟨0, []⟩, 0) :=
  predictColor_invalid_input (fun _ => 0) (.str "nope") ⟨0, []⟩ rfl

/-- Claim C9: whenever preprocessing succeeds, `trainModel` performs
exactly one `fit` call, with shuffling enabled, epochs/batchSize/
validationSplit taken from the config with defaults 50/32/0.2, and exactly
one early-stopping callback monitoring `val_loss` with minimum delta 0.001,
patience 5, mode `min`. -/
theorem trainModel_fit_configuration {α : Type}
    (fit : FitCall → Except String α) (sel uns : JSArg) (cfg : TrainConfig)
    (h h1 : Heap) (ds : Dataset)
    (hp : preprocessData sel uns h = (.ok ds, h1)) :
    (trainModel fit sel uns cfg h).2.2 =
      [{ xsId := ds.xsId, ysId := ds.ysId,
         epochs := cfg.epochs.getD 50, batchSize := cfg.batchSize.getD 32,
         validationSplit := cfg.validationSplit.getD 0.2, shuffle := true,
         callbacks := [{ monitor := "val_loss", minDelta := 0.001,
                         patience := 5, mode := "min" }] }] :=
  trainModel_calls_eq fit sel uns cfg h h1 ds hp

/-- Witness for C9: concrete training data and an omitted config, showing
the defaults 50/32/0.2 and the early-stopping rule in the recorded call. -/
theorem trainModel_fit_configuration_witness :
    (trainModel (fun _ => .ok (0 : ℕ)) (.arr [.str "#fff"])
        (.arr [.str "#000"]) {} ⟨0, []⟩).2.2 =
      [{ xsId := 0, ysId := 1, epochs := 50, batchSize := 32,
         validationSplit := 0.2, shuffle := true,
         callbacks := [{ monitor := "val_loss", minDelta := 0.001,
                         patience := 5, mode := "min" }] }] :=
  trainModel_fit_configuration (fun _ => .ok (0 : ℕ)) _ _ {} ⟨0, []⟩ _ _
    (preprocessData_ok_eq [.str "#fff"] [.str "#000"] ⟨0, []⟩
      (by decide) (by decide) (by decide) (by decide))

/-- Claim C10: `preprocessData` and `trainModel` only read the caller's
arrays (the source uses `map`, `filter` and spread, none of which mutate),
so the store of array references — and with it each argument list's length
and elements — is unchanged whether the call succeeds or fails. -/
theorem caller_arrays_unchanged {α : Type} (fit : FitCall → Except String α)
    (st : ArrStore) (selRef unsRef : ℕ) (cfg : TrainConfig) (h h' : Heap) :
    (preprocessDataRef st selRef unsRef h).2 = st ∧
    readArr (preprocessDataRef st selRef unsRef h).2 selRef =
      readArr st selRef ∧
    readArr (preprocessDataRef st selRef unsRef h).2 unsRef =
      readArr st unsRef ∧
    (trainModelRef fit st selRef unsRef cfg h').2 = st ∧
    readArr (trainModelRef fit st selRef unsRef cfg h').2 selRef =
      readArr st selRef ∧
    readArr (trainModelRef fit st selRef unsRef cfg h').2 unsRef =
      readArr st unsRef ∧
    ((trainModelRef fit st selRef unsRef cfg h').2).length = st.length :=
  ⟨rfl, rfl, rfl, rfl, rfl, rfl, rfl⟩

end ColorPredictor

namespace ColorPredictor

/-- Counterexample to claim C1 as stated: starting from an empty heap,
`predictColor` on a valid color returns with buffer 1 — the output buffer
allocated by `model.predict` — still live, so not every buffer allocated
for the call is released before return. -/
theorem predictColor_leaks_output_buffer :
    ((predictColor (fun _ => 0.7) (.str "#ffffff") ⟨0, []⟩).2.1).live = [1] ∧
    ([1] : List ℕ) ≠ [] := by
  constructor
  · rw [predictColor_some_eq (fun _ => 0.7) (.str "#ffffff") ⟨0, []⟩
      ((255 : ℚ) / 255, (255 : ℚ) / 255, (255 : ℚ) / 255) rfl]
  · decide

/-- Claim C1 amended: `trainModel` releases both training tensors on every
exit path (success, preprocessing failure, or fit failure); `predictColor`
releases its input buffer on every path, but the output buffer allocated by
the forward pass (identifier `h'.next + 1`) is still live on return. -/
theorem tensor_lifecycle_amended {α : Type} (fit : FitCall → Except String α)
    (sel uns : JSArg) (cfg : TrainConfig) (model : ℚ × ℚ × ℚ → ℚ)
    (color : JSVal) (rgb : ℚ × ℚ × ℚ) (h h' : Heap)
    (hs : hexToRgb color = some rgb) :
    ((trainModel fit sel uns cfg h).2.1).live = h.live ∧
    ((predictColor model color h').2.1).live = (h'.next + 1) :: h'.live := by
  refine ⟨trainModel_heap_restored fit sel uns cfg h, ?_⟩
  rw [predictColor_some_eq model color h' rgb hs]

/-- Witness for the amended C1 at concrete inputs. -/
theorem tensor_lifecycle_amended_witness :
    ((trainModel (fun _ => .ok (0 : ℕ)) (.arr [.str "#fff"])
        (.arr [.str "#000"]) {} ⟨0, []⟩).2.1).live = [] ∧
    ((predictColor (fun _ => 0.7) (.str "#ffffff") ⟨5, [3]⟩).2.1).live =
      [6, 3] :=
  tensor_lifecycle_amended (fun _ => .ok (0 : ℕ)) (.arr [.str "#fff"])
    (.arr [.str "#000"]) {} (fun _ => 0.7) (.str "#ffffff")
    ((255 : ℚ) / 255, (255 : ℚ) / 255, (255 : ℚ) / 255) ⟨0, []⟩ ⟨5, [3]⟩ rfl

end ColorPredictor

namespace ColorPredictor

/-- Counterexample to claim C2 as stated: when the Preprocessor rejects a
non-array argument with "Color arrays must be provided", `trainModel` does
not fail with that same error — the catch block wraps it as
"Training failed: Color arrays must be provided". -/
theorem trainModel_wraps_preprocessor_error :
    (preprocessData .notArr (.arr [.str "#fff"]) ⟨0, []⟩).1 =
      .error "Color arrays must be provided" ∧
    (trainModel (fun _ => .ok (0 : ℕ)) .notArr (.arr [.str "#fff"]) {}
        ⟨0, []⟩).1 = .error "Training failed: Color arrays must be provided" ∧
    ("Training failed: Color arrays must be provided" : String) ≠
      "Color arrays must be provided" :=
  ⟨rfl, rfl, by decide⟩

/-- Claim C2 amended: `trainModel` wraps every failure — the Preprocessor's
errors as well as the engine's fit errors — into a training-failure error
carrying the original message, prefixed "Training failed: ". -/
theorem trainModel_error_wrapping_amended {α : Type}
    (fit : FitCall → Except String α) (sel uns : JSArg) (cfg : TrainConfig)
    (h : Heap) :
    (∀ e h1, preprocessData sel uns h = (.error e, h1) →
      (trainModel fit sel uns cfg h).1 =
        .error ("Training failed: " ++ e)) ∧
    (∀ ds h1 e, preprocessData sel uns h = (.ok ds, h1) →
      fit { xsId := ds.xsId, ysId := ds.ysId, epochs := cfg.epochs.getD 50,
            batchSize := cfg.batchSize.getD 32,
            validationSplit := cfg.validationSplit.getD 0.2, shuffle := true,
            callbacks := [earlyStoppingCallback] } = .error e →
      (trainModel fit sel uns cfg h).1 =
        .error ("Training failed: " ++ e)) := by
  constructor
  · intro e h1 hp
    rw [trainModel_error_of_pre fit sel uns cfg h h1 e hp]
  · intro ds h1 e hp hf
    exact trainModel_fit_error fit sel uns cfg h h1 ds e hp hf

/-- Witness for the amended C2: a preprocessor failure and an engine fit
failure, both surfaced with the "Training failed: " prefix. -/
theorem trainModel_error_wrapping_amended_witness :
    (trainModel (fun _ => .ok (0 : ℕ)) .notArr .notArr {} ⟨0, []⟩).1 =
      .error ("Training failed: " ++ "Color arrays must be provided") ∧
    (trainModel (fun _ => (.error "boom" : Except String ℕ))
        (.arr [.str "#fff"]) (.arr [.str "#000"]) {} ⟨0, []⟩).1 =
      .error ("Training failed: " ++ "boom") :=
  ⟨(trainModel_error_wrapping_amended (fun _ => .ok (0 : ℕ)) .notArr .notArr
      {} ⟨0, []⟩).1 "Color arrays must be provided" ⟨0, []⟩ rfl,
   (trainModel_error_wrapping_amended (fun _ => (.error "boom" : Except String ℕ))
      (.arr [.str "#fff"]) (.arr [.str "#000"]) {} ⟨0, []⟩).2 _ _ "boom"
      (preprocessData_ok_eq [.str "#fff"] [.str "#000"] ⟨0, []⟩
        (by decide) (by decide) (by decide) (by decide)) rfl⟩

end ColorPredictor
